import Mathlib

set_option autoImplicit false

/-!
Shallow embedding of `src/scripts/download_features.py`.

The script resolves streaming-history entries to Spotify track ids, fetches
per-track metadata and audio features over HTTP, and writes three CSV files.
HTTP transport is modelled by oracle functions (one per endpoint) returning
either a timeout or a `(status, body)` reply; Python exceptions are modelled
with `Except` / an `err` field, and the files written so far are tracked
explicitly so that partial persistence is observable.
-/

namespace SpotiData

/-- Outcome of one blocking `requests.get` call: either the request exceeded
its deadline (`requests.exceptions.Timeout`) or a reply arrived with an HTTP
status code and a parsed JSON body. -/
inductive HttpResult (α : Type) where
  | timeout
  | reply (status : Nat) (body : α)
  deriving DecidableEq, Repr

/-- Python exceptions that can escape the fetch functions / the orchestrator. -/
inductive Err where
  /-- `requests.exceptions.HTTPError` raised by `response.raise_for_status()`. -/
  | httpErr (status : Nat)
  /-- an uncaught `requests.exceptions.Timeout`. -/
  | timeoutErr
  /-- `IndexError` from indexing an empty list. -/
  | indexErr
  /-- pandas `KeyError` from selecting columns absent from a frame. -/
  | keyErr
  /-- pandas `AttributeError` from reading a column attribute off a frame
  that has no such column (e.g. an empty frame). -/
  | attrErr
  deriving DecidableEq, Repr

/-- One item of `json['tracks']['items']` in a search reply (only the `id`
field is read by the script). -/
structure SearchItem where
  id : String
  deriving DecidableEq, Repr

/-- Body of a search reply: the `tracks.items` list. -/
structure SearchBody where
  items : List SearchItem
  deriving DecidableEq, Repr

/-- One entry of the `artists` list in a track-metadata reply. -/
structure Artist where
  id : String
  name : String
  type : String
  deriving DecidableEq, Repr

/-- The `album` object in a track-metadata reply. -/
structure Album where
  type : String
  id : String
  name : String
  release_date : String
  deriving DecidableEq, Repr

/-- Body of a `GET /v1/tracks/{id}` reply (the fields the script reads). -/
structure TrackBody where
  album : Album
  artists : List Artist
  duration_ms : Nat
  is_local : Bool
  name : String
  popularity : Nat
  type : String
  deriving DecidableEq, Repr

/-- The dict `selected_data` built by `get_track_data`. -/
structure TrackMetadata where
  album_type : String
  album_id : String
  album_name : String
  album_release_date : String
  artist1_id : String
  artist1_name : String
  artist1_type : String
  artist2_id : Option String
  artist2_name : Option String
  artist2_type : Option String
  duration_ms : Nat
  is_local : Bool
  name : String
  popularity : Nat
  type : String
  deriving DecidableEq, Repr

/-- Body of a `GET /v1/audio-features/{id}` reply: the twelve numeric
descriptors kept by the script plus the extra fields the endpoint also
returns (which the final column projection drops).  Numeric JSON values are
modelled as `Int`; the script only moves them around. -/
structure FeatBody where
  danceability : Int
  energy : Int
  key : Int
  loudness : Int
  mode : Int
  speechiness : Int
  acousticness : Int
  instrumentalness : Int
  liveness : Int
  valence : Int
  tempo : Int
  time_signature : Int
  id : String
  uri : String
  track_href : String
  analysis_url : String
  type : String
  duration_ms : Nat
  deriving DecidableEq, Repr

/-- The three HTTP endpoints the script talks to.  Each oracle receives the
request data the script actually sends (query params / path id, and the
headers) and yields the transport outcome. -/
structure Api where
  search : List (String × String) → List (String × String) → HttpResult SearchBody
  track : String → List (String × String) → HttpResult TrackBody
  features : String → List (String × String) → HttpResult FeatBody

/-- `requests.Response.raise_for_status`: raises `HTTPError` for any status
in `[400, 600)`, does nothing otherwise. -/
def raise_for_status (status : Nat) : Except Err Unit :=
  if 400 ≤ status ∧ status < 600 then .error (.httpErr status) else .ok ()

/-- `get_headers`: basic headers with the bearer auth token. -/
def get_headers (token : String) : List (String × String) :=
  [("Accept", "application/json"),
   ("Content-Type", "application/json"),
   ("Authorization", "Bearer " ++ token)]

/-- `get_id`: searches for a track by free-text query `q`.  Returns the id of
the first result, or `none` when the search yields zero items (printing `q`,
modelled by the returned diagnostic list) or when the request times out (the
`except requests.exceptions.Timeout` clause).  Any `HTTPError` from
`raise_for_status` is not a `Timeout`, so it escapes the `try` block. -/
def get_id (search : List (String × String) → List (String × String) → HttpResult SearchBody)
    (q : String) (token : String) : Except Err (Option String × List String) :=
  match search [("q", q), ("type", "track")] (get_headers token) with
  | .timeout => .ok (none, [])
  | .reply status body =>
    match raise_for_status status with
    | .error e => .error e
    | .ok () =>
      match body.items with
      | [] => .ok (none, [q])
      | first_result :: _ => .ok (some first_result.id, [])

/-- `get_track_data`: fetches metadata for a track id and projects the fixed
field subset into `selected_data`.  The request carries no timeout argument,
and no exception is caught: a timeout or an `HTTPError` propagates.  Indexing
`track_data['artists'][0]` raises `IndexError` on an empty artist list; the
second-artist fields are `None` when the artist list has fewer than two
entries. -/
def get_track_data (track : String → List (String × String) → HttpResult TrackBody)
    (track_id : String) (token : String) : Except Err TrackMetadata :=
  match track track_id (get_headers token) with
  | .timeout => .error .timeoutErr
  | .reply status body =>
    match raise_for_status status with
    | .error e => .error e
    | .ok () =>
      match body.artists with
      | [] => .error .indexErr
      | a1 :: rest =>
        .ok {
          album_type := body.album.type
          album_id := body.album.id
          album_name := body.album.name
          album_release_date := body.album.release_date
          artist1_id := a1.id
          artist1_name := a1.name
          artist1_type := a1.type
          artist2_id := match rest with | [] => none | a2 :: _ => some a2.id
          artist2_name := match rest with | [] => none | a2 :: _ => some a2.name
          artist2_type := match rest with | [] => none | a2 :: _ => some a2.type
          duration_ms := body.duration_ms
          is_local := body.is_local
          name := body.name
          popularity := body.popularity
          type := body.type }

/-- `get_track_audio_features`: fetches audio features for a track id with a
5-second timeout.  Status 503 is checked before `raise_for_status` and yields
`None` (features unavailable for this track).  No exception is caught here:
in particular a `requests.exceptions.Timeout` propagates to the caller. -/
def get_track_audio_features
    (features : String → List (String × String) → HttpResult FeatBody)
    (track_id : String) (token : String) : Except Err (Option FeatBody) :=
  match features track_id (get_headers token) with
  | .timeout => .error .timeoutErr
  | .reply status body =>
    if status = 503 then .ok none
    else
      match raise_for_status status with
      | .error e => .error e
      | .ok () => .ok (some body)

/-- One record of the streaming-history JSON array.  `endTime` is the parsed
timestamp, modelled as seconds since the epoch. -/
structure Record where
  artistName : String
  trackName : String
  endTime : Int
  deriving DecidableEq, Repr

/-- One row of the annotated history frame `df` at the end of `main`:
the original record with its shifted `endTime` plus the two added columns
`artist+track` (here `query`) and `id_`. -/
structure HistRow where
  artistName : String
  trackName : String
  endTime : Int
  query : String
  id_ : Option String
  deriving DecidableEq, Repr

/-- One entry of `tracks_data`: the `selected_data` dict with `data['id_']`
added. -/
structure TrackRow where
  data : TrackMetadata
  id_ : String
  deriving DecidableEq, Repr

/-- One entry of `tracks_features_data`: a raw feature body with
`data['id_']` added. -/
structure FeatRow where
  body : FeatBody
  id_ : String
  deriving DecidableEq, Repr

/-- A CSV cell value (string or numeric). -/
inductive CsvCell where
  | s (v : String)
  | n (v : Int)
  deriving DecidableEq, Repr

/-- pandas `Series.unique()`: the distinct values in first-occurrence
order. -/
def pdUnique {α : Type} [DecidableEq α] : List α → List α
  | [] => []
  | x :: xs => x :: (pdUnique xs).filter (· ≠ x)

/-- A `tracks_features_data` entry as the ordered key/value dict pandas sees:
the raw audio-features reply fields, with `id_` inserted last. -/
def featRowToAssoc (r : FeatRow) : List (String × CsvCell) :=
  [("danceability", .n r.body.danceability),
   ("energy", .n r.body.energy),
   ("key", .n r.body.key),
   ("loudness", .n r.body.loudness),
   ("mode", .n r.body.mode),
   ("speechiness", .n r.body.speechiness),
   ("acousticness", .n r.body.acousticness),
   ("instrumentalness", .n r.body.instrumentalness),
   ("liveness", .n r.body.liveness),
   ("valence", .n r.body.valence),
   ("tempo", .n r.body.tempo),
   ("type", .s r.body.type),
   ("id", .s r.body.id),
   ("uri", .s r.body.uri),
   ("track_href", .s r.body.track_href),
   ("analysis_url", .s r.body.analysis_url),
   ("duration_ms", .n (Int.ofNat r.body.duration_ms)),
   ("time_signature", .n r.body.time_signature),
   ("id_", .s r.id_)]

/-- The `keep_features` column list of `main`. -/
def keep_features : List String :=
  ["id_", "danceability", "energy", "key", "loudness", "mode", "speechiness",
   "acousticness", "instrumentalness", "liveness", "valence", "tempo",
   "time_signature"]

/-- pandas `DataFrame(rows)[cols]`: reorders/projects the frame to `cols`.
A frame built from an empty list of dicts has no columns at all, so any
selection raises `KeyError`; a missing column likewise raises `KeyError`. -/
def dfSelect (cols : List String) (rows : List (List (String × CsvCell))) :
    Except Err (List (List (String × CsvCell))) :=
  match rows with
  | [] => .error .keyErr
  | r0 :: _ =>
    if cols.all (fun c => (r0.lookup c).isSome) then
      .ok (rows.map (fun row => cols.filterMap (fun c => (row.lookup c).map (fun v => (c, v)))))
    else .error .keyErr

/-- The `artist+track` query string of a record:
`row.artistName + ' ' + row.trackName`. -/
def mkQuery (r : Record) : String := r.artistName ++ " " ++ r.trackName

/-- Dict lookup `id_map[q]` (every query of `df` is a key of `id_map`, so the
missing-key case is unreachable in `main`). -/
def lookupId (m : List (String × Option String)) (q : String) : Option String :=
  match m.lookup q with
  | some v => v
  | none => none

/-- The annotated history frame: `endTime` shifted by
`pd.offsets.DateOffset(hours=3)` (+10800 seconds), the `artist+track` column,
and the `id_` column looked up from `id_map`. -/
def annotateHistory (history : List Record) (idMap : List (String × Option String)) :
    List HistRow :=
  history.map (fun r =>
    { artistName := r.artistName
      trackName := r.trackName
      endTime := r.endTime + 3 * 3600
      query := mkQuery r
      id_ := lookupId idMap (mkQuery r) })

/-- Result of the id-resolution dict comprehension
`{q: get_id(q, token) for q in unique_tracks}`, instrumented with the printed
unmatched queries (`log`) and the queries actually sent upstream (`calls`).
A raised exception stops the comprehension: `err` records it and no map is
produced. -/
structure ResolveOut where
  idMap : List (String × Option String)
  log : List String
  calls : List String
  err : Option Err
  deriving DecidableEq, Repr

/-- Runs `get_id` once per element of `qs`, left to right, stopping at the
first exception. -/
def resolveQueries
    (search : List (String × String) → List (String × String) → HttpResult SearchBody)
    (token : String) : List String → ResolveOut
  | [] => ⟨[], [], [], none⟩
  | q :: qs =>
    match get_id search q token with
    | .error e => ⟨[], [], [q], some e⟩
    | .ok (oid, lg) =>
      let r := resolveQueries search token qs
      ⟨(q, oid) :: r.idMap, lg ++ r.log, q :: r.calls, r.err⟩

/-- Result of the metadata `for` loop over `df['id_'].unique()`,
instrumented with the ids actually fetched. -/
structure MetaOut where
  rows : List TrackRow
  calls : List String
  err : Option Err
  deriving DecidableEq, Repr

/-- The metadata loop: skips `None` ids, fetches each remaining id once, and
stops at the first exception (losing the rows collected so far, which in the
script die with the process before any write). -/
def fetchMetaLoop (track : String → List (String × String) → HttpResult TrackBody)
    (token : String) : List (Option String) → MetaOut
  | [] => ⟨[], [], none⟩
  | none :: rest => fetchMetaLoop track token rest
  | some id_ :: rest =>
    match get_track_data track id_ token with
    | .error e => ⟨[], [id_], some e⟩
    | .ok md =>
      let r := fetchMetaLoop track token rest
      ⟨⟨md, id_⟩ :: r.rows, id_ :: r.calls, r.err⟩

/-- Result of the feature `for` loop over `tracks_df.id_.unique()`. -/
structure FeatOut where
  rows : List FeatRow
  calls : List String
  err : Option Err
  deriving DecidableEq, Repr

/-- The feature loop: fetches each id once, skips ids whose features come
back `None`, stops at the first exception.  (The script's `if id_ is None:
continue` guard is unreachable here: every id in `tracks_df` is a string.) -/
def fetchFeaturesLoop (features : String → List (String × String) → HttpResult FeatBody)
    (token : String) : List String → FeatOut
  | [] => ⟨[], [], none⟩
  | id_ :: rest =>
    match get_track_audio_features features id_ token with
    | .error e => ⟨[], [id_], some e⟩
    | .ok none =>
      let r := fetchFeaturesLoop features token rest
      ⟨r.rows, id_ :: r.calls, r.err⟩
    | .ok (some body) =>
      let r := fetchFeaturesLoop features token rest
      ⟨⟨body, id_⟩ :: r.rows, id_ :: r.calls, r.err⟩

/-- Observable outcome of one run of `main`: which of the three CSV files got
written (with their contents), the exception that ended the run if any, the
upstream calls each stage made, and the diagnostic prints. -/
structure RunOutput where
  tracksCsv : Option (List TrackRow)
  featuresCsv : Option (List (List (String × CsvCell)))
  historyCsv : Option (List HistRow)
  err : Option Err
  searchCalls : List String
  trackCalls : List String
  featureCalls : List String
  log : List String
  deriving DecidableEq, Repr

/-- Stage 1 of `main`: the dict comprehension
`{artist_track: get_id(artist_track, token) for artist_track in unique_tracks}`
with `unique_tracks = df['artist+track'].unique()`. -/
def runResolve (history : List Record) (api : Api) (token : String) : ResolveOut :=
  resolveQueries api.search token (pdUnique (history.map mkQuery))

/-- Stage 2 of `main`: the frame `df` after `df['id_'] = ...`. -/
def runDf (history : List Record) (api : Api) (token : String) : List HistRow :=
  annotateHistory history (runResolve history api token).idMap

/-- Stage 3 of `main`: the metadata loop over `df['id_'].unique()`. -/
def runMeta (history : List Record) (api : Api) (token : String) : MetaOut :=
  fetchMetaLoop api.track token (pdUnique ((runDf history api token).map (fun r => r.id_)))

/-- Stage 4 of `main`: the feature loop over `tracks_df.id_.unique()`. -/
def runFeat (history : List Record) (api : Api) (token : String) : FeatOut :=
  fetchFeaturesLoop api.features token
    (pdUnique ((runMeta history api token).rows.map (fun r => r.id_)))

/-- The orchestrator `main`, with the history JSON already parsed into
`history` and the OAuth collaborator abstracted into `token`.

Stage order follows the script: shift `endTime`, build and dedup the
queries, resolve ids, annotate `df`, fetch metadata per unique non-`None`
id, write `tracks.csv`, fetch features per unique id of `tracks_df`,
project to `keep_features`, write `features.csv`, then write
`streaming_history.csv`.  `df.endTime` on a frame loaded from an empty JSON
array raises `AttributeError` (an empty frame has no columns), as does
`tracks_df.id_` when no metadata row was collected; those crashes and every
uncaught fetch exception end the run with only the files already written
(and with the later loops never entered, hence their empty call lists). -/
def main (history : List Record) (api : Api) (token : String) : RunOutput :=
  if history.isEmpty then
    ⟨none, none, none, some .attrErr, [], [], [], []⟩
  else
    match (runResolve history api token).err with
    | some e =>
      ⟨none, none, none, some e,
       (runResolve history api token).calls, [], [], (runResolve history api token).log⟩
    | none =>
      match (runMeta history api token).err with
      | some e =>
        ⟨none, none, none, some e,
         (runResolve history api token).calls, (runMeta history api token).calls, [],
         (runResolve history api token).log⟩
      | none =>
        if (runMeta history api token).rows.isEmpty then
          ⟨some (runMeta history api token).rows, none, none, some .attrErr,
           (runResolve history api token).calls, (runMeta history api token).calls, [],
           (runResolve history api token).log⟩
        else
          match (runFeat history api token).err with
          | some e =>
            ⟨some (runMeta history api token).rows, none, none, some e,
             (runResolve history api token).calls, (runMeta history api token).calls,
             (runFeat history api token).calls, (runResolve history api token).log⟩
          | none =>
            match dfSelect keep_features ((runFeat history api token).rows.map featRowToAssoc) with
            | .error e =>
              ⟨some (runMeta history api token).rows, none, none, some e,
               (runResolve history api token).calls, (runMeta history api token).calls,
               (runFeat history api token).calls, (runResolve history api token).log⟩
            | .ok table =>
              ⟨some (runMeta history api token).rows, some table, some (runDf history api token),
               none,
               (runResolve history api token).calls, (runMeta history api token).calls,
               (runFeat history api token).calls, (runResolve history api token).log⟩

/-! ### Concrete environment used by witnesses and counterexamples -/

/-- A concrete album object. -/
def demoAlbum : Album := ⟨"album", "al1", "Album One", "2020-01-01"⟩

/-- A metadata reply body with a single-entry artist list. -/
def demoTrackBody1 : TrackBody :=
  { album := demoAlbum, artists := [⟨"A1", "Artist One", "artist"⟩],
    duration_ms := 210000, is_local := false, name := "x", popularity := 42, type := "track" }

/-- A metadata reply body with a two-entry artist list. -/
def demoTrackBody2 : TrackBody :=
  { album := demoAlbum,
    artists := [⟨"A1", "Artist One", "artist"⟩, ⟨"A2", "Artist Two", "artist"⟩],
    duration_ms := 180000, is_local := false, name := "y", popularity := 7, type := "track" }

/-- A metadata reply body with an empty artist list. -/
def demoTrackBody0 : TrackBody :=
  { album := demoAlbum, artists := [],
    duration_ms := 60000, is_local := false, name := "z", popularity := 0, type := "track" }

/-- A concrete audio-features reply body. -/
def demoFeatBody : FeatBody :=
  { danceability := 1, energy := 2, key := 3, loudness := 4, mode := 5, speechiness := 6,
    acousticness := 7, instrumentalness := 8, liveness := 9, valence := 10, tempo := 11,
    time_signature := 12, id := "id2", uri := "u", track_href := "h", analysis_url := "a",
    type := "audio_features", duration_ms := 180000 }

/-- A well-behaved upstream: query `"A x"` resolves to id `"abc123"` (features
return 503 for it), query `"B y"` resolves to `"id2"` (features succeed), any
other query yields zero results. -/
def demoApi : Api :=
  { search := fun ps _ =>
      if ps.lookup "q" = some "A x" then .reply 200 ⟨[⟨"abc123"⟩]⟩
      else if ps.lookup "q" = some "B y" then .reply 200 ⟨[⟨"id2"⟩]⟩
      else .reply 200 ⟨[]⟩
    track := fun id_ _ =>
      if id_ = "abc123" then .reply 200 demoTrackBody1 else .reply 200 demoTrackBody2
    features := fun id_ _ =>
      if id_ = "abc123" then .reply 503 demoFeatBody else .reply 200 demoFeatBody }

/-- Three history records; the first two share the query string `"A x"`. -/
def demoHistory : List Record := [⟨"A", "x", 0⟩, ⟨"A", "x", 60⟩, ⟨"B", "y", 120⟩]

/-- Like `demoApi` but the audio-features endpoint replies 500. -/
def demoApi500 : Api := { demoApi with features := fun _ _ => .reply 500 demoFeatBody }

/-- Like `demoApi` but every audio-features request times out. -/
def demoApiTimeout : Api := { demoApi with features := fun _ _ => .timeout }

/-- Like `demoApi` but the audio-features endpoint replies 503 for every id. -/
def demoApiAll503 : Api := { demoApi with features := fun _ _ => .reply 503 demoFeatBody }

/-- Like `demoApi` but every search yields zero results, so no query
resolves. -/
def demoApiNoHit : Api := { demoApi with search := fun _ _ => .reply 200 ⟨[]⟩ }

/-- The annotated history frame of the `demoApi` run. -/
def demoDf : List HistRow :=
  [⟨"A", "x", 10800, "A x", some "abc123"⟩,
   ⟨"A", "x", 10860, "A x", some "abc123"⟩,
   ⟨"B", "y", 10920, "B y", some "id2"⟩]

/-- The metadata row of track `"abc123"` in the `demoApi` run. -/
def demoMeta1 : TrackMetadata :=
  { album_type := "album", album_id := "al1", album_name := "Album One",
    album_release_date := "2020-01-01", artist1_id := "A1", artist1_name := "Artist One",
    artist1_type := "artist", artist2_id := none, artist2_name := none, artist2_type := none,
    duration_ms := 210000, is_local := false, name := "x", popularity := 42, type := "track" }

/-- The metadata row of track `"id2"` in the `demoApi` run. -/
def demoMeta2 : TrackMetadata :=
  { album_type := "album", album_id := "al1", album_name := "Album One",
    album_release_date := "2020-01-01", artist1_id := "A1", artist1_name := "Artist One",
    artist1_type := "artist", artist2_id := some "A2", artist2_name := some "Artist Two",
    artist2_type := some "artist", duration_ms := 180000, is_local := false, name := "y",
    popularity := 7, type := "track" }

/-- The `tracks.csv` contents of the `demoApi` run. -/
def demoTracksRows : List TrackRow := [⟨demoMeta1, "abc123"⟩, ⟨demoMeta2, "id2"⟩]

/-- The single `features.csv` row of the `demoApi` run: track `"id2"`
projected to the 13 kept columns. -/
def demoFeatRow : List (String × CsvCell) :=
  [("id_", .s "id2"), ("danceability", .n 1), ("energy", .n 2), ("key", .n 3),
   ("loudness", .n 4), ("mode", .n 5), ("speechiness", .n 6), ("acousticness", .n 7),
   ("instrumentalness", .n 8), ("liveness", .n 9), ("valence", .n 10), ("tempo", .n 11),
   ("time_signature", .n 12)]

/-- The `features.csv` contents of the `demoApi` run (track `"abc123"` is
omitted because its features came back 503). -/
def demoFeatTable : List (List (String × CsvCell)) := [demoFeatRow]

/-! ### Helper lemmas -/

/-- Membership is preserved by pandas-style deduplication. -/
theorem mem_pdUnique {α : Type} [DecidableEq α] (a : α) (l : List α) :
    a ∈ pdUnique l ↔ a ∈ l := by
  induction l with
  | nil => simp [pdUnique]
  | cons x xs ih =>
    by_cases h : a = x <;> simp [pdUnique, List.mem_filter, h, ih]

/-- Deduplication yields a duplicate-free list. -/
theorem nodup_pdUnique {α : Type} [DecidableEq α] (l : List α) : (pdUnique l).Nodup := by
  induction l with
  | nil => simp [pdUnique]
  | cons x xs ih =>
    simp only [pdUnique, List.nodup_cons]
    refine ⟨fun hx => ?_, ih.filter _⟩
    have := (List.mem_filter.mp hx).2
    simp at this

/-- The resolver is called only on (a prefix of) the query list it is given,
each at most once in list order. -/
theorem resolveQueries_calls_sublist
    (search : List (String × String) → List (String × String) → HttpResult SearchBody)
    (token : String) (qs : List String) :
    (resolveQueries search token qs).calls.Sublist qs := by
  induction qs with
  | nil => simp [resolveQueries]
  | cons q qs ih =>
    simp only [resolveQueries]
    cases hg : get_id search q token with
    | error e => exact (List.nil_sublist qs).cons₂ q
    | ok v =>
      cases v with
      | mk oid lg => exact ih.cons₂ q

/-- When the metadata loop raises no exception, it called the upstream once
per non-`None` id, in order, and collected exactly one row per call. -/
theorem fetchMetaLoop_err_none
    (track : String → List (String × String) → HttpResult TrackBody) (token : String)
    (ids : List (Option String)) (h : (fetchMetaLoop track token ids).err = none) :
    (fetchMetaLoop track token ids).calls = ids.reduceOption ∧
    (fetchMetaLoop track token ids).rows.map TrackRow.id_ = ids.reduceOption := by
  induction ids with
  | nil => simp [fetchMetaLoop]
  | cons o rest ih =>
    cases o with
    | none =>
      simp only [fetchMetaLoop] at h ⊢
      simpa using ih h
    | some id_ =>
      simp only [fetchMetaLoop] at h ⊢
      cases hg : get_track_data track id_ token with
      | error e => rw [hg] at h; simp at h
      | ok md =>
        rw [hg] at h
        have := ih (by simpa using h)
        simp [this.1, this.2]

/-- When the feature loop raises no exception, it called the upstream once
per id it was given, in order. -/
theorem fetchFeaturesLoop_err_none
    (features : String → List (String × String) → HttpResult FeatBody) (token : String)
    (ids : List String) (h : (fetchFeaturesLoop features token ids).err = none) :
    (fetchFeaturesLoop features token ids).calls = ids := by
  induction ids with
  | nil => simp [fetchFeaturesLoop]
  | cons id_ rest ih =>
    simp only [fetchFeaturesLoop] at h ⊢
    cases hg : get_track_audio_features features id_ token with
    | error e => rw [hg] at h; simp at h
    | ok ob =>
      rw [hg] at h
      cases ob with
      | none => simpa using ih (by simpa using h)
      | some body => simpa using ih (by simpa using h)

/-- A successful column selection implies a non-empty input frame and
describes the output rows. -/
theorem dfSelect_ok_shape (cols : List String) (rows out : List (List (String × CsvCell)))
    (h : dfSelect cols rows = .ok out) :
    rows ≠ [] ∧
    out = rows.map (fun row => cols.filterMap (fun c => (row.lookup c).map (fun v => (c, v)))) := by
  unfold dfSelect at h
  split at h
  · simp at h
  split at h
  · exact ⟨by simp_all, (Except.ok.inj h).symm⟩
  · simp at h

/-- Dropping the `None` entries of a duplicate-free list of options leaves a
duplicate-free list. -/
theorem reduceOption_nodup {α : Type} (l : List (Option α)) (h : l.Nodup) :
    l.reduceOption.Nodup := by
  have he : l.reduceOption = l.filterMap id := rfl
  rw [he]
  refine List.Nodup.filterMap ?_ h
  intro a a' b hb hb'
  simp only [id] at hb hb'
  cases a <;> cases a' <;> simp_all

/-- Projecting a feature row to `keep_features` finds every column, and the
resulting cells carry the column names in `keep_features` order. -/
theorem featRow_proj_cols (r : FeatRow) :
    (keep_features.filterMap
      (fun c => ((featRowToAssoc r).lookup c).map (fun v => (c, v)))).map Prod.fst =
    keep_features := rfl

/-- Pointwise description of the annotated history frame. -/
theorem annotateHistory_get (history : List Record) (idMap : List (String × Option String))
    (i : Nat) (hi : i < (annotateHistory history idMap).length) (hi' : i < history.length) :
    (annotateHistory history idMap).get ⟨i, hi⟩ =
      { artistName := (history.get ⟨i, hi'⟩).artistName
        trackName := (history.get ⟨i, hi'⟩).trackName
        endTime := (history.get ⟨i, hi'⟩).endTime + 3 * 3600
        query := mkQuery (history.get ⟨i, hi'⟩)
        id_ := lookupId idMap (mkQuery (history.get ⟨i, hi'⟩)) } := by
  simp [annotateHistory]

/-- Every annotated row carries the id its query maps to. -/
theorem annotateHistory_mem (history : List Record) (idMap : List (String × Option String))
    (r : HistRow) (hr : r ∈ annotateHistory history idMap) :
    r.id_ = lookupId idMap r.query := by
  simp only [annotateHistory, List.mem_map] at hr
  obtain ⟨rec, _, rfl⟩ := hr
  rfl

/-- Either a run ends cleanly, or neither `features.csv` nor
`streaming_history.csv` was written. -/
theorem main_err_or (history : List Record) (api : Api) (token : String) :
    (main history api token).err = none ∨
      ((main history api token).featuresCsv = none ∧
       (main history api token).historyCsv = none) := by
  unfold main
  split
  · right; exact ⟨rfl, rfl⟩
  · split
    · right; exact ⟨rfl, rfl⟩
    · split
      · right; exact ⟨rfl, rfl⟩
      · split
        · right; exact ⟨rfl, rfl⟩
        · split
          · right; exact ⟨rfl, rfl⟩
          · split
            · right; exact ⟨rfl, rfl⟩
            · left; rfl

/-- `streaming_history.csv`, when written, is the annotated frame. -/
theorem main_historyCsv_some (history : List Record) (api : Api) (token : String)
    (out : List HistRow) (h : (main history api token).historyCsv = some out) :
    out = runDf history api token := by
  unfold main at h
  split at h
  · simp at h
  split at h
  · simp at h
  split at h
  · simp at h
  split at h
  · simp at h
  split at h
  · simp at h
  split at h
  · simp at h
  exact (Option.some.inj h).symm

/-- `tracks.csv`, when written, is the collected metadata table. -/
theorem main_tracksCsv_some (history : List Record) (api : Api) (token : String)
    (rows : List TrackRow) (h : (main history api token).tracksCsv = some rows) :
    rows = (runMeta history api token).rows := by
  unfold main at h
  split at h
  · simp at h
  split at h
  · simp at h
  split at h
  · simp at h
  split at h
  · exact (Option.some.inj h).symm
  split at h
  · exact (Option.some.inj h).symm
  split at h
  · exact (Option.some.inj h).symm
  exact (Option.some.inj h).symm

/-- `features.csv`, when written, is the successful `keep_features`
selection over the collected feature rows. -/
theorem main_featuresCsv_some (history : List Record) (api : Api) (token : String)
    (table : List (List (String × CsvCell)))
    (h : (main history api token).featuresCsv = some table) :
    dfSelect keep_features ((runFeat history api token).rows.map featRowToAssoc) = .ok table := by
  unfold main at h
  split at h
  · simp at h
  split at h
  · simp at h
  split at h
  · simp at h
  split at h
  · simp at h
  split at h
  · simp at h
  split at h
  next heq => simp at h
  next table' heq => rw [heq, (Option.some.inj h)]

/-- A clean run reached the last branch of `main`: every stage finished
without an exception and the outputs are the stage results. -/
theorem main_err_none (history : List Record) (api : Api) (token : String)
    (h0 : (main history api token).err = none) :
    (runResolve history api token).err = none ∧
    (runMeta history api token).err = none ∧
    (runFeat history api token).err = none ∧
    (main history api token).searchCalls = (runResolve history api token).calls ∧
    (main history api token).trackCalls = (runMeta history api token).calls ∧
    (main history api token).featureCalls = (runFeat history api token).calls ∧
    (main history api token).historyCsv = some (runDf history api token) ∧
    (main history api token).tracksCsv = some (runMeta history api token).rows := by
  revert h0
  unfold main
  split
  · intro h; simp at h
  split
  · intro h; simp at h
  next hres =>
  split
  · intro h; simp at h
  next hmeta =>
  split
  · intro h; simp at h
  split
  · intro h; simp at h
  next hfeat =>
  split
  next heq => intro h; simp at h
  next table heq =>
    intro h
    exact ⟨hres, hmeta, hfeat, rfl, rfl, rfl, rfl, rfl⟩

/-- The resolver call list of a run is either the resolution stage's call
list or empty (when the run died before resolution). -/
theorem main_searchCalls (history : List Record) (api : Api) (token : String) :
    (main history api token).searchCalls = (runResolve history api token).calls ∨
    (main history api token).searchCalls = [] := by
  unfold main
  split
  · right; rfl
  · split
    · left; rfl
    · split
      · left; rfl
      · split
        · left; rfl
        · split
          · left; rfl
          · split
            · left; rfl
            · left; rfl

/-! ### Claim theorems -/

/-- Claim C1, amended: a feature request that exceeds its 5-second deadline is
NOT absorbed into absence — `get_track_audio_features` has no handler for the
timeout, so it propagates as a fatal error — unlike the id-resolution stage,
where a timeout yields absence and the run continues. -/
theorem c1_feature_timeout_fatal
    (features : String → List (String × String) → HttpResult FeatBody)
    (track_id token : String)
    (h : features track_id (get_headers token) = HttpResult.timeout) :
    get_track_audio_features features track_id token = .error .timeoutErr ∧
    ∀ (search : List (String × String) → List (String × String) → HttpResult SearchBody)
      (q : String),
      search [("q", q), ("type", "track")] (get_headers token) = HttpResult.timeout →
      get_id search q token = .ok (none, []) := by
  constructor
  · simp only [get_track_audio_features, h]
  · intro search q hs
    simp only [get_id, hs]

/-- Claim C1, witness: concrete timed-out feature and search requests. -/
theorem c1_witness :
    get_track_audio_features (fun _ _ => HttpResult.timeout) "abc123" "tok" =
      .error .timeoutErr ∧
    get_id (fun _ _ => HttpResult.timeout) "A x" "tok" = .ok (none, []) := by
  have h := c1_feature_timeout_fatal (fun _ _ => HttpResult.timeout) "abc123" "tok" rfl
  exact ⟨h.1, h.2 (fun _ _ => HttpResult.timeout) "A x" rfl⟩

/-- Claim C1, counterexample: a timed-out feature request returns an error,
not absence, and in a run whose feature endpoint times out the exception
reaches the orchestrator and aborts the run before `features.csv`. -/
theorem c1_counterexample :
    get_track_audio_features (fun _ _ => HttpResult.timeout) "abc123" "tok" =
      .error .timeoutErr ∧
    (main demoHistory demoApiTimeout "tok").err = some .timeoutErr ∧
    (main demoHistory demoApiTimeout "tok").featuresCsv = none :=
  ⟨rfl, by decide, by decide⟩

/-- Claim C2, amended: every fatal error aborts the run with `features.csv`
and `streaming_history.csv` unwritten; `tracks.csv` however may already have
been persisted, because it is written before the feature stage runs. -/
theorem c2_fatal_abort (history : List Record) (api : Api) (token : String) (e : Err)
    (h : (main history api token).err = some e) :
    (main history api token).featuresCsv = none ∧
    (main history api token).historyCsv = none := by
  rcases main_err_or history api token with h0 | h0
  · rw [h] at h0; exact absurd h0 (by simp)
  · exact h0

/-- Claim C2, witness: the aborted run with a 500 feature endpoint wrote
neither `features.csv` nor `streaming_history.csv`. -/
theorem c2_witness :
    (main demoHistory demoApi500 "tok").featuresCsv = none ∧
    (main demoHistory demoApi500 "tok").historyCsv = none :=
  c2_fatal_abort demoHistory demoApi500 "tok" (.httpErr 500) (by decide)

/-- Claim C2, counterexample: when the feature endpoint replies 500, the run
aborts fatally but `tracks.csv` has already been persisted as a partial
result, contradicting "nothing persisted regardless of which stage
failed". -/
theorem c2_counterexample :
    (main demoHistory demoApi500 "tok").err = some (.httpErr 500) ∧
    (main demoHistory demoApi500 "tok").tracksCsv = some demoTracksRows := by decide

/-- Claim C3: `get_id` returns the id of the first search item when the
result list is non-empty; it returns absence on zero results (emitting the
query to the diagnostic stream) and on timeout; every other non-success
status (400–599) propagates as a fatal `HTTPError`. -/
theorem c3_get_id_spec
    (search : List (String × String) → List (String × String) → HttpResult SearchBody)
    (q token : String) :
    (search [("q", q), ("type", "track")] (get_headers token) = HttpResult.timeout →
      get_id search q token = .ok (none, [])) ∧
    (∀ (status : Nat) (body : SearchBody),
      search [("q", q), ("type", "track")] (get_headers token) = .reply status body →
      ¬(400 ≤ status ∧ status < 600) →
      (body.items = [] → get_id search q token = .ok (none, [q])) ∧
      (∀ (first_result : SearchItem) (rest : List SearchItem),
        body.items = first_result :: rest →
        get_id search q token = .ok (some first_result.id, []))) ∧
    (∀ (status : Nat) (body : SearchBody),
      search [("q", q), ("type", "track")] (get_headers token) = .reply status body →
      400 ≤ status → status < 600 →
      get_id search q token = .error (.httpErr status)) := by
  refine ⟨fun ht => ?_,
    fun status body hr hn => ⟨fun hi => ?_, fun first_result rest hi => ?_⟩,
    fun status body hr h4 h6 => ?_⟩
  · simp only [get_id, ht]
  · simp only [get_id, raise_for_status, hr, if_neg hn, hi]
  · simp only [get_id, raise_for_status, hr, if_neg hn, hi]
  · simp only [get_id, raise_for_status, hr, if_pos (And.intro h4 h6)]

/-- Claim C3, witness: all four resolver behaviours at concrete inputs. -/
theorem c3_witness :
    get_id demoApi.search "A x" "tok" = .ok (some "abc123", []) ∧
    get_id demoApi.search "C z" "tok" = .ok (none, ["C z"]) ∧
    get_id (fun _ _ => HttpResult.timeout) "B y" "tok" = .ok (none, []) ∧
    get_id (fun _ _ => .reply 404 ⟨[]⟩) "A x" "tok" = .error (.httpErr 404) := by
  refine ⟨?_, ?_, ?_, ?_⟩
  · exact ((c3_get_id_spec demoApi.search "A x" "tok").2.1 200 ⟨[⟨"abc123"⟩]⟩
      (by decide) (by decide)).2 ⟨"abc123"⟩ [] (by decide)
  · exact ((c3_get_id_spec demoApi.search "C z" "tok").2.1 200 ⟨[]⟩
      (by decide) (by decide)).1 (by decide)
  · exact (c3_get_id_spec (fun _ _ => HttpResult.timeout) "B y" "tok").1 rfl
  · exact (c3_get_id_spec (fun _ _ => .reply 404 ⟨[]⟩) "A x" "tok").2.2 404 ⟨[]⟩
      rfl (by decide) (by decide)

/-- Claim C4: `get_track_audio_features` treats status 503 as legitimate
absence (checked before the generic status check, so it never raises), every
other non-success status is fatal, and in the demo run — whose feature
endpoint replies 503 for id `"abc123"` — the feature table omits that id
entirely while the metadata table still includes it. -/
theorem c4_503_absence
    (features : String → List (String × String) → HttpResult FeatBody)
    (track_id token : String) :
    (∀ body : FeatBody, features track_id (get_headers token) = .reply 503 body →
      get_track_audio_features features track_id token = .ok none) ∧
    (∀ (status : Nat) (body : FeatBody),
      features track_id (get_headers token) = .reply status body →
      status ≠ 503 → 400 ≤ status → status < 600 →
      get_track_audio_features features track_id token = .error (.httpErr status)) ∧
    ((main demoHistory demoApi "tok").tracksCsv = some demoTracksRows ∧
     (main demoHistory demoApi "tok").featuresCsv = some demoFeatTable ∧
     demoTracksRows.map TrackRow.id_ = ["abc123", "id2"] ∧
     demoFeatTable.map (fun row => row.lookup "id_") = [some (.s "id2")]) := by
  refine ⟨fun body hr => ?_, fun status body hr h5 h4 h6 => ?_, by decide⟩
  · simp [get_track_audio_features, hr]
  · simp only [get_track_audio_features, raise_for_status, hr, if_neg h5,
      if_pos (And.intro h4 h6)]

/-- Claim C4, witness: a concrete 503 yields absence, a concrete 500 is
fatal. -/
theorem c4_witness :
    get_track_audio_features demoApi.features "abc123" "tok" = .ok none ∧
    get_track_audio_features (fun _ _ => .reply 500 demoFeatBody) "abc123" "tok" =
      .error (.httpErr 500) := by
  constructor
  · exact (c4_503_absence demoApi.features "abc123" "tok").1 demoFeatBody (by decide)
  · exact (c4_503_absence (fun _ _ => .reply 500 demoFeatBody) "abc123" "tok").2.1
      500 demoFeatBody rfl (by decide) (by decide) (by decide)

/-- Claim C5, counterexample: a metadata response whose artist list is empty
(hence has fewer than two entries) does not produce a row with absent
second-artist fields — `track_data['artists'][0]` raises `IndexError`
first. -/
theorem c5_counterexample :
    get_track_data (fun _ _ => .reply 200 demoTrackBody0) "t1" "tok" = .error .indexErr := rfl

/-- Claim C5, amended: on a successful reply whose artist list has exactly
one entry, all three second-artist fields are uniformly absent (`None`, not
empty string or zero); with at least two entries they carry the second
artist's id, name and type; an empty artist list raises `IndexError`. -/
theorem c5_second_artist_fields
    (track : String → List (String × String) → HttpResult TrackBody)
    (track_id token : String) (status : Nat) (body : TrackBody)
    (hr : track track_id (get_headers token) = .reply status body)
    (hok : ¬(400 ≤ status ∧ status < 600)) :
    (∀ a1 : Artist, body.artists = [a1] →
      get_track_data track track_id token = .ok
        { album_type := body.album.type, album_id := body.album.id,
          album_name := body.album.name, album_release_date := body.album.release_date,
          artist1_id := a1.id, artist1_name := a1.name, artist1_type := a1.type,
          artist2_id := none, artist2_name := none, artist2_type := none,
          duration_ms := body.duration_ms, is_local := body.is_local, name := body.name,
          popularity := body.popularity, type := body.type }) ∧
    (∀ (a1 a2 : Artist) (rest : List Artist), body.artists = a1 :: a2 :: rest →
      get_track_data track track_id token = .ok
        { album_type := body.album.type, album_id := body.album.id,
          album_name := body.album.name, album_release_date := body.album.release_date,
          artist1_id := a1.id, artist1_name := a1.name, artist1_type := a1.type,
          artist2_id := some a2.id, artist2_name := some a2.name,
          artist2_type := some a2.type,
          duration_ms := body.duration_ms, is_local := body.is_local, name := body.name,
          popularity := body.popularity, type := body.type }) ∧
    (body.artists = [] → get_track_data track track_id token = .error .indexErr) := by
  refine ⟨fun a1 h1 => ?_, fun a1 a2 rest h2 => ?_, fun h0 => ?_⟩
  · simp only [get_track_data, raise_for_status, hr, if_neg hok, h1]
  · simp only [get_track_data, raise_for_status, hr, if_neg hok, h2]
  · simp only [get_track_data, raise_for_status, hr, if_neg hok, h0]

/-- Claim C5, witness: concrete one-artist and two-artist responses. -/
theorem c5_witness :
    get_track_data demoApi.track "abc123" "tok" = .ok demoMeta1 ∧
    get_track_data demoApi.track "id2" "tok" = .ok demoMeta2 := by
  constructor
  · exact (c5_second_artist_fields demoApi.track "abc123" "tok" 200 demoTrackBody1
      (by decide) (by decide)).1 ⟨"A1", "Artist One", "artist"⟩ rfl
  · exact (c5_second_artist_fields demoApi.track "id2" "tok" 200 demoTrackBody2
      (by decide) (by decide)).2.1 ⟨"A1", "Artist One", "artist"⟩
      ⟨"A2", "Artist Two", "artist"⟩ [] rfl

/-- Claim C6: whenever the history table is written, it has exactly as many
rows as the input, in the same order, each row carrying its input record's
artist and track names and the timestamp shifted by exactly +3 hours. -/
theorem c6_history_rows (history : List Record) (api : Api) (token : String)
    (out : List HistRow) (h : (main history api token).historyCsv = some out) :
    out.length = history.length ∧
    ∀ (i : Nat) (hi : i < out.length) (hi' : i < history.length),
      (out.get ⟨i, hi⟩).artistName = (history.get ⟨i, hi'⟩).artistName ∧
      (out.get ⟨i, hi⟩).trackName = (history.get ⟨i, hi'⟩).trackName ∧
      (out.get ⟨i, hi⟩).endTime = (history.get ⟨i, hi'⟩).endTime + 3 * 3600 := by
  obtain rfl := main_historyCsv_some history api token out h
  unfold runDf
  refine ⟨by simp [annotateHistory], fun i hi hi' => ?_⟩
  rw [annotateHistory_get history (runResolve history api token).idMap i hi hi']
  exact ⟨rfl, rfl, rfl⟩

/-- Claim C6, witness: the demo run's history table at row 0. -/
theorem c6_witness :
    demoDf.length = demoHistory.length ∧
    (demoDf.get ⟨0, by decide⟩).endTime = (demoHistory.get ⟨0, by decide⟩).endTime + 3 * 3600 := by
  have h := c6_history_rows demoHistory demoApi "tok" demoDf (by decide)
  exact ⟨h.1, (h.2 0 (by decide) (by decide)).2.2⟩

/-- Claim C7: each record's query is `artistName + " " + trackName`, the
resolver is invoked at most once per distinct query (its call list is
duplicate-free and drawn from the record queries), and every record is
annotated from the query-to-id mapping, so records with equal queries get
equal (possibly absent) ids. -/
theorem c7_query_dedup (history : List Record) (api : Api) (token : String) :
    (main history api token).searchCalls.Nodup ∧
    (∀ q, q ∈ (main history api token).searchCalls → q ∈ history.map mkQuery) ∧
    (∀ out, (main history api token).historyCsv = some out →
      (∀ (i : Nat) (hi : i < out.length) (hi' : i < history.length),
        (out.get ⟨i, hi⟩).query =
          (history.get ⟨i, hi'⟩).artistName ++ " " ++ (history.get ⟨i, hi'⟩).trackName) ∧
      (∀ r1 r2, r1 ∈ out → r2 ∈ out → r1.query = r2.query → r1.id_ = r2.id_)) := by
  have hsub := resolveQueries_calls_sublist api.search token (pdUnique (history.map mkQuery))
  refine ⟨?_, ?_, ?_⟩
  · rcases main_searchCalls history api token with he | he <;> rw [he]
    · exact List.Nodup.sublist hsub (nodup_pdUnique _)
    · exact List.nodup_nil
  · intro q hq
    rcases main_searchCalls history api token with he | he <;> rw [he] at hq
    · exact (mem_pdUnique q _).mp (hsub.subset hq)
    · simp at hq
  · intro out hout
    obtain rfl := main_historyCsv_some history api token out hout
    unfold runDf
    constructor
    · intro i hi hi'
      rw [annotateHistory_get history (runResolve history api token).idMap i hi hi']
      exact rfl
    · intro r1 r2 h1 h2 hq
      rw [annotateHistory_mem history _ r1 h1, annotateHistory_mem history _ r2 h2, hq]

/-- Claim C7, witness: in the demo run the resolver call list is
duplicate-free and the two records sharing query `"A x"` got the same id. -/
theorem c7_witness :
    (main demoHistory demoApi "tok").searchCalls.Nodup ∧
    (demoDf.get ⟨0, by decide⟩).id_ = (demoDf.get ⟨1, by decide⟩).id_ := by
  have h := c7_query_dedup demoHistory demoApi "tok"
  refine ⟨h.1, ?_⟩
  exact (h.2.2 demoDf (by decide)).2 (demoDf.get ⟨0, by decide⟩) (demoDf.get ⟨1, by decide⟩)
    (by decide) (by decide) (by decide)

/-- Claim C8: in a clean run, metadata is fetched exactly once per distinct
non-absent id of the annotated history (absent ids trigger no fetch), and
audio features are fetched exactly once per distinct id of the metadata
table; both call lists are duplicate-free. -/
theorem c8_once_per_id (history : List Record) (api : Api) (token : String)
    (h : (main history api token).err = none) :
    (main history api token).trackCalls.Nodup ∧
    (main history api token).featureCalls.Nodup ∧
    (∀ out, (main history api token).historyCsv = some out →
      ∀ id_ : String,
        id_ ∈ (main history api token).trackCalls ↔ some id_ ∈ out.map (fun r => r.id_)) ∧
    (∀ rows, (main history api token).tracksCsv = some rows →
      ∀ id_ : String,
        id_ ∈ (main history api token).featureCalls ↔ id_ ∈ rows.map (fun r => r.id_)) := by
  obtain ⟨hres, hmeta, hfeat, hsc, htc, hfc, hhist, htracks⟩ := main_err_none history api token h
  have hm := fetchMetaLoop_err_none api.track token
    (pdUnique ((runDf history api token).map (fun r : HistRow => r.id_))) hmeta
  have hf := fetchFeaturesLoop_err_none api.features token
    (pdUnique ((runMeta history api token).rows.map (fun r : TrackRow => r.id_))) hfeat
  have hmc : (runMeta history api token).calls =
      (pdUnique ((runDf history api token).map (fun r : HistRow => r.id_))).reduceOption := hm.1
  have hfcalls : (runFeat history api token).calls =
      pdUnique ((runMeta history api token).rows.map (fun r : TrackRow => r.id_)) := hf
  refine ⟨?_, ?_, ?_, ?_⟩
  · rw [htc, hmc]
    exact reduceOption_nodup _ (nodup_pdUnique _)
  · rw [hfc, hfcalls]
    exact nodup_pdUnique _
  · intro out hout id_
    have he : out = runDf history api token := by
      rw [hhist] at hout; exact (Option.some.inj hout).symm
    subst he
    rw [htc, hmc, List.reduceOption_mem_iff, mem_pdUnique]
  · intro rows hrows id_
    have he : rows = (runMeta history api token).rows := by
      rw [htracks] at hrows; exact (Option.some.inj hrows).symm
    subst he
    rw [hfc, hfcalls, mem_pdUnique]

/-- Claim C8, witness: the demo run fetched id `"abc123"` in both downstream
stages, and its metadata call list is duplicate-free. -/
theorem c8_witness :
    (main demoHistory demoApi "tok").trackCalls.Nodup ∧
    "abc123" ∈ (main demoHistory demoApi "tok").trackCalls ∧
    "abc123" ∈ (main demoHistory demoApi "tok").featureCalls := by
  have h := c8_once_per_id demoHistory demoApi "tok" (by decide)
  refine ⟨h.1, ?_, ?_⟩
  · exact (h.2.2.1 demoDf (by decide) "abc123").mpr (by decide)
  · exact (h.2.2.2 demoTracksRows (by decide) "abc123").mpr (by decide)

/-- Claim C9: whenever `features.csv` is written, every row consists of
exactly the fixed 13 columns, id first, in the `keep_features` order. -/
theorem c9_feature_columns (history : List Record) (api : Api) (token : String)
    (table : List (List (String × CsvCell)))
    (h : (main history api token).featuresCsv = some table) :
    keep_features = ["id_", "danceability", "energy", "key", "loudness", "mode", "speechiness",
      "acousticness", "instrumentalness", "liveness", "valence", "tempo", "time_signature"] ∧
    ∀ row, row ∈ table → row.map Prod.fst = keep_features := by
  refine ⟨rfl, fun row hrow => ?_⟩
  have hsel := main_featuresCsv_some history api token table h
  obtain ⟨hne, rfl⟩ := dfSelect_ok_shape _ _ _ hsel
  rw [List.mem_map] at hrow
  obtain ⟨assoc, hassoc, rfl⟩ := hrow
  rw [List.mem_map] at hassoc
  obtain ⟨r, hr, rfl⟩ := hassoc
  exact featRow_proj_cols r

/-- Claim C9, witness: the demo run's single feature row carries the 13
column names in order. -/
theorem c9_witness : demoFeatRow.map Prod.fst = keep_features :=
  (c9_feature_columns demoHistory demoApi "tok" demoFeatTable (by decide)).2
    demoFeatRow (by decide)

/-- Claim C10, amended: a written feature table is never empty — selecting
`keep_features` from an empty frame raises `KeyError`, as the all-absent demo
run shows — and every fatal error (including the `AttributeError` raised
earlier when no id resolved at all) ends the run with `features.csv` and
`streaming_history.csv` unwritten. -/
theorem c10_empty_features_abort (history : List Record) (api : Api) (token : String) :
    (∀ table, (main history api token).featuresCsv = some table → 0 < table.length) ∧
    dfSelect keep_features ([] : List (List (String × CsvCell))) = .error .keyErr ∧
    (∀ e, (main history api token).err = some e →
      (main history api token).featuresCsv = none ∧
      (main history api token).historyCsv = none) ∧
    ((main demoHistory demoApiAll503 "tok").err = some .keyErr ∧
     (main demoHistory demoApiAll503 "tok").tracksCsv = some demoTracksRows ∧
     (main demoHistory demoApiAll503 "tok").featuresCsv = none ∧
     (main demoHistory demoApiAll503 "tok").historyCsv = none) := by
  refine ⟨fun table ht => ?_, rfl, fun e he => ?_, by decide⟩
  · have hsel := main_featuresCsv_some history api token table ht
    obtain ⟨hne, rfl⟩ := dfSelect_ok_shape _ _ _ hsel
    simpa [List.length_pos] using hne
  · rcases main_err_or history api token with h0 | h0
    · rw [he] at h0; exact absurd h0 (by simp)
    · exact h0

/-- Claim C10, witness: the demo feature table is non-empty, and the
all-absent run wrote neither late file. -/
theorem c10_witness :
    0 < demoFeatTable.length ∧
    (main demoHistory demoApiAll503 "tok").featuresCsv = none ∧
    (main demoHistory demoApiAll503 "tok").historyCsv = none := by
  refine ⟨(c10_empty_features_abort demoHistory demoApi "tok").1 demoFeatTable (by decide), ?_⟩
  exact (c10_empty_features_abort demoHistory demoApiAll503 "tok").2.2.1 Err.keyErr (by decide)

/-- Claim C10, counterexample: with no resolved ids at all the run does
terminate without the late files, but the error is the `AttributeError` from
reading the id column of the empty metadata frame, not the `KeyError` of the
13-column selection — the selection is never reached. -/
theorem c10_counterexample :
    (main demoHistory demoApiNoHit "tok").err = some Err.attrErr ∧
    decide ((main demoHistory demoApiNoHit "tok").err = some Err.keyErr) = false ∧
    (main demoHistory demoApiNoHit "tok").tracksCsv = some [] ∧
    (main demoHistory demoApiNoHit "tok").featuresCsv = none ∧
    (main demoHistory demoApiNoHit "tok").historyCsv = none := by decide

end SpotiData
